import Mathlib

/-!
Verification of the configuration-resolution and icon-resolution core of the
`lsd` directory-listing tool, as a shallow embedding of the Rust sources
(`src/config_file.rs`, `src/icon.rs`, `src/flags/display.rs`,
`src/flags/theme.rs`) in Lean 4.

Conventions of the embedding:
* Rust `Option<T>` becomes `Option T`; fallible operations become `Except`.
* Side-effecting error reporting (the `print_error!` macro) is modelled by
  returning the list of reported messages alongside the result.
* External I/O (file reads, the YAML text scanner, `Theme::from_path`) is
  modelled by passing its outcome as an explicit argument.
-/

/-- A YAML value tree, the output of the external YAML text scanner
(`serde_yaml`'s parse stage).  Mappings are association lists with string
keys, which covers every document shape the configuration schema uses. -/
inductive Yaml where
  | null : Yaml
  | bool (b : Bool) : Yaml
  | str (s : String) : Yaml
  | int (n : Int) : Yaml
  | seq (xs : List Yaml) : Yaml
  | map (kvs : List (String × Yaml)) : Yaml

/-- First-match key lookup in a YAML mapping. -/
def Yaml.lookup : List (String × Yaml) → String → Option Yaml
  | [], _ => none
  | (k, v) :: rest, key => if k = key then some v else Yaml.lookup rest key

namespace ConfigFile

/-- `config_file.rs`: `struct Color { when: String }` — `when` is required. -/
structure Color where
  wh : String
deriving DecidableEq, Repr

/-- `config_file.rs`: `struct Icons { when: Option<String>, theme: Option<String> }`. -/
structure Icons where
  wh : Option String
  theme : Option String
deriving DecidableEq, Repr

/-- `config_file.rs`: `struct Recursion { enabled: Option<bool>, depth: Option<usize> }`. -/
structure Recursion where
  enabled : Option Bool
  depth : Option Nat
deriving DecidableEq, Repr

/-- `config_file.rs`: `struct Sorting { column, reverse, dir_grouping }`. -/
structure Sorting where
  column : Option String
  reverse : Option Bool
  dir_grouping : Option String
deriving DecidableEq, Repr

/-- `config_file.rs`: `struct Config` — the raw configuration document,
every field optional. -/
structure Config where
  classic : Option Bool
  blocks : Option (List Yaml)
  color : Option Color
  date : Option String
  dereference : Option Bool
  display : Option String
  icons : Option Icons
  ignore_globs : Option (List Yaml)
  indicators : Option Bool
  layout : Option String
  recursion : Option Recursion
  size : Option String
  sorting : Option Sorting
  no_symlink : Option Bool
  total_size : Option Bool
  symlink_arrow : Option String

/-- `Config::with_none()`: the all-`None` document. -/
def Config.with_none : Config :=
  ⟨none, none, none, none, none, none, none, none,
   none, none, none, none, none, none, none, none⟩

/-! The typed deserialization stage of `serde_yaml::from_str::<Config>`,
as generated by `#[derive(Deserialize)]`: a value of the wrong type for any
field fails the whole document; unknown keys are ignored; an absent or null
value for an `Option` field is `None`. -/

/-- serde: deserialize a `bool`. -/
def deBool : Yaml → Except String Bool
  | .bool b => .ok b
  | _ => .error "invalid type: expected a boolean"

/-- serde: deserialize a `String`. -/
def deString : Yaml → Except String String
  | .str s => .ok s
  | _ => .error "invalid type: expected a string"

/-- serde: deserialize a `serde_yaml::Sequence` (any list of YAML values). -/
def deSeq : Yaml → Except String (List Yaml)
  | .seq xs => .ok xs
  | _ => .error "invalid type: expected a sequence"

/-- serde: deserialize a `usize` (non-negative integer). -/
def deNat : Yaml → Except String Nat
  | .int n => if 0 ≤ n then .ok n.toNat else .error "invalid value: negative integer"
  | _ => .error "invalid type: expected an integer"

/-- serde: an `Option<T>` struct field — absent or null is `None`, anything
else must deserialize as `T`. -/
def deOpt (f : Yaml → Except String α) : Option Yaml → Except String (Option α)
  | none => .ok none
  | some .null => .ok none
  | some v => (f v).map some

/-- serde: a required struct field — absent is a missing-field error. -/
def deReq (f : Yaml → Except String α) : Option Yaml → Except String α
  | none => .error "missing field"
  | some v => f v

/-- serde: deserialize `Color` (field `when` required). -/
def deColor : Yaml → Except String Color
  | .map kvs => (deReq deString (Yaml.lookup kvs "when")).map Color.mk
  | _ => .error "invalid type: expected a map for color"

/-- serde: deserialize the `icons` section. -/
def deIcons : Yaml → Except String Icons
  | .map kvs => do
      let w ← deOpt deString (Yaml.lookup kvs "when")
      let t ← deOpt deString (Yaml.lookup kvs "theme")
      .ok ⟨w, t⟩
  | _ => .error "invalid type: expected a map for icons"

/-- serde: deserialize the `recursion` section. -/
def deRecursion : Yaml → Except String Recursion
  | .map kvs => do
      let e ← deOpt deBool (Yaml.lookup kvs "enabled")
      let d ← deOpt deNat (Yaml.lookup kvs "depth")
      .ok ⟨e, d⟩
  | _ => .error "invalid type: expected a map for recursion"

/-- serde: deserialize the `sorting` section.  The Rust field is
`dir_grouping`, with no serde rename, so only the key `dir_grouping`
matches it. -/
def deSorting : Yaml → Except String Sorting
  | .map kvs => do
      let c ← deOpt deString (Yaml.lookup kvs "column")
      let r ← deOpt deBool (Yaml.lookup kvs "reverse")
      let g ← deOpt deString (Yaml.lookup kvs "dir_grouping")
      .ok ⟨c, r, g⟩
  | _ => .error "invalid type: expected a map for sorting"

/-- serde: the derived `Deserialize` for `Config`.  Each field is matched by
its Rust identifier (no serde renames in the source), unknown keys are
ignored, and the first failing field fails the whole document. -/
def Config.deserialize : Yaml → Except String Config
  | .map kvs => do
      let classic ← deOpt deBool (Yaml.lookup kvs "classic")
      let blocks ← deOpt deSeq (Yaml.lookup kvs "blocks")
      let color ← deOpt deColor (Yaml.lookup kvs "color")
      let date ← deOpt deString (Yaml.lookup kvs "date")
      let dereference ← deOpt deBool (Yaml.lookup kvs "dereference")
      let display ← deOpt deString (Yaml.lookup kvs "display")
      let icons ← deOpt deIcons (Yaml.lookup kvs "icons")
      let ignore_globs ← deOpt deSeq (Yaml.lookup kvs "ignore_globs")
      let indicators ← deOpt deBool (Yaml.lookup kvs "indicators")
      let layout ← deOpt deString (Yaml.lookup kvs "layout")
      let recursion ← deOpt deRecursion (Yaml.lookup kvs "recursion")
      let size ← deOpt deString (Yaml.lookup kvs "size")
      let sorting ← deOpt deSorting (Yaml.lookup kvs "sorting")
      let no_symlink ← deOpt deBool (Yaml.lookup kvs "no_symlink")
      let total_size ← deOpt deBool (Yaml.lookup kvs "total_size")
      let symlink_arrow ← deOpt deString (Yaml.lookup kvs "symlink_arrow")
      .ok ⟨classic, blocks, color, date, dereference, display, icons, ignore_globs,
           indicators, layout, recursion, size, sorting, no_symlink, total_size,
           symlink_arrow⟩
  | _ => .error "invalid type: expected a map"

/-- `Config::with_yaml`: parse a YAML document into a `Config`; on failure,
report a format error and yield no document.  The argument is the outcome of
the external YAML text scanner (`.error` when the text itself is unparsable);
the typed stage `Config.deserialize` is applied on top.  The second component
collects the `print_error!` output. -/
def Config.with_yaml (yaml : Except String Yaml) : Option Config × List String :=
  match yaml.bind Config.deserialize with
  | .ok c => (some c, [])
  | .error e => (none, ["configuration file format error, " ++ e])

/-- The `std::io::ErrorKind` values `Config::with_file` distinguishes. -/
inductive IOErrorKind where
  | NotFound
  | PermissionDenied
  | Other
deriving DecidableEq, Repr

/-- `Config::with_file`: read a file and parse it.  The `read` argument is
the outcome of `fs::read` (an I/O error kind, or the file's content already
run through the external YAML scanner).  `NotFound` is silent; any other
read error is reported; in every failure case no document is produced. -/
def Config.with_file (file : String)
    (read : Except IOErrorKind (Except String Yaml)) : Option Config × List String :=
  match read with
  | .ok f => Config.with_yaml f
  | .error e =>
      match e with
      | .NotFound => (none, [])
      | _ => (none, ["bad config file: " ++ file])

/-- The embedded built-in YAML template from `impl Default for Config`,
scanned into a YAML tree.  The `display` and `ignore-globs` entries are
commented out in the template, hence absent here; the hyphenated keys
(`dir-grouping`, `no-symlink`, `total-size`, `symlink-arrow`) are kept
verbatim as they appear in the template text. -/
def builtinConfigYaml : Yaml := .map
  [("classic", .bool false),
   ("blocks", .seq [.str "permission", .str "user", .str "group",
                    .str "size", .str "date", .str "name"]),
   ("color", .map [("when", .str "auto")]),
   ("date", .str "date"),
   ("dereference", .bool false),
   ("icons", .map [("when", .str "auto"), ("theme", .str "fancy")]),
   ("indicators", .bool false),
   ("layout", .str "grid"),
   ("recursion", .map [("enabled", .bool false)]),
   ("size", .str "default"),
   ("sorting", .map [("column", .str "name"), ("reverse", .bool false),
                     ("dir-grouping", .str "none")]),
   ("no-symlink", .bool false),
   ("total-size", .bool false),
   ("symlink-arrow", .str "⇒")]

/-- `impl Default for Config`: try the conventional config-file path, fall
back to the embedded template.  The `located` argument is the outcome of
`config_file_path()` together with the outcome of reading that path; the
final `.unwrap()` of the Rust source is modelled by returning the raw
`Option` so that its totality can be stated as a theorem. -/
def Config.defaultConfig
    (located : Option (String × Except IOErrorKind (Except String Yaml))) :
    Option Config :=
  match located with
  | some (p, r) =>
      match (Config.with_file p r).1 with
      | some c => some c
      | none => (Config.with_yaml (.ok builtinConfigYaml)).1
  | none => (Config.with_yaml (.ok builtinConfigYaml)).1

end ConfigFile

/-! ## `src/icon.rs` — the icon resolver -/

/-- `flags::IconOption` (`--icon <when>`): when to show icons.  Modelled from
the spec: the flag enum itself lives in the flags module, outside the files
at hand; `icon.rs` matches on these three variants. -/
inductive IconOption where
  | Always
  | Auto
  | Never
deriving DecidableEq, Repr

/-- `flags::IconTheme` (`--icon-theme <name>`), called `FlagTheme` in
`icon.rs`.  Modelled from the spec: the two theme choices `fancy` and
`unicode`. -/
inductive FlagTheme where
  | Fancy
  | Unicode
deriving DecidableEq, Repr

/-- `meta::FileType`: the closed classification of a filesystem entry, the
variants `icon.rs` matches on. -/
inductive FileType where
  | SymLink (is_dir : Bool)
  | Socket
  | Pipe
  | CharDevice
  | BlockDevice
  | Special
  | Directory (uid : Bool)
  | File (uid exec : Bool)
deriving DecidableEq, Repr

/-- The per-filetype glyph table of `theme::icon::IconTheme`
(`icons_by_filetype`), one glyph per `FileTypeCategory` — exhaustive by
construction, which is the §3 invariant. -/
structure IconsByFiletype where
  symlink_dir : String
  symlink_file : String
  socket : String
  pipe : String
  device_char : String
  device_block : String
  special : String
  dir : String
  executable : String
  file : String
deriving DecidableEq, Repr

/-- `theme::icon::IconTheme`: the immutable glyph lookup table.  The
by-name and by-extension hash maps are modelled as partial functions from
(lowercase) strings to glyphs. -/
structure IconTheme where
  icons_by_filetype : IconsByFiletype
  icons_by_name : String → Option String
  icons_by_extension : String → Option String

/-- `meta::Name`: the File Entry Descriptor — the facts `Icons::get` reads
from an entry: its file name, its optional extension, and its file type. -/
structure Name where
  file_name : String
  extension : Option String
  file_type : FileType

/-- `icon.rs`: `struct Icons { icon_separator: String, theme: Option<IconTheme> }`. -/
structure Icons where
  icon_separator : String
  theme : Option IconTheme

/-- Rust's `str::to_lowercase`, modelled as per-character lowercasing of
the string's characters (the names the icon tables use are ASCII). -/
def toLowercase (s : String) : String := ⟨s.data.map Char.toLower⟩

/-- `Icons::new`: decide whether icons are enabled and which theme table to
use.  `from_path` is the outcome of the external call
`Theme::from_path::<IconTheme>("icons")` (the user override theme);
`dflt` is the compiled-in `IconTheme::default()` table and `uni` the
compiled-in `IconTheme::unicode()` table, passed explicitly because their
literal glyph data lives outside the embedded files. -/
def Icons.new (from_path : Except String IconTheme) (dflt uni : IconTheme)
    (tty : Bool) (wh : IconOption) (theme : FlagTheme)
    (icon_separator : String) : Icons :=
  let icon_theme : Option IconTheme :=
    match tty, wh, theme with
    | _, .Never, _ => none
    | false, .Auto, _ => none
    | _, _, .Fancy =>
        match from_path with
        | .ok t => some t
        | .error _ => some dflt
    | _, _, .Unicode => some uni
  ⟨icon_separator, icon_theme⟩

/-- `Icons::get`: resolve the glyph string for one entry.  Mirrors the
source's match: fixed filetype categories first, then by-name, then
by-extension, then the category default (the non-Windows build, where the
`exec` branch is compiled in). -/
def Icons.get (self : Icons) (name : Name) : String :=
  match self.theme with
  | none => ""
  | some t =>
      let icon : String :=
        match name.file_type with
        | .SymLink true => t.icons_by_filetype.symlink_dir
        | .SymLink false => t.icons_by_filetype.symlink_file
        | .Socket => t.icons_by_filetype.socket
        | .Pipe => t.icons_by_filetype.pipe
        | .CharDevice => t.icons_by_filetype.device_char
        | .BlockDevice => t.icons_by_filetype.device_block
        | .Special => t.icons_by_filetype.special
        | ft =>
            match t.icons_by_name (toLowercase name.file_name) with
            | some icon => icon
            | none =>
                match name.extension.bind (fun ext => t.icons_by_extension (toLowercase ext)) with
                | some icon => icon
                | none =>
                    match ft with
                    | .Directory _ => t.icons_by_filetype.dir
                    | .File _ true => t.icons_by_filetype.executable
                    | _ => t.icons_by_filetype.file
      icon ++ self.icon_separator

/-! ## `src/flags/display.rs` — the display-filter option resolver -/

namespace Flags

/-- `flags::Display`: which file system nodes to display. -/
inductive Display where
  | All
  | AlmostAll
  | DirectoryItself
  | DisplayOnlyVisible
deriving DecidableEq, Repr

/-- `Display::from_str`: map one of the three recognized literals to its
variant; for any other string, report an error (the `print_error!` output is
the second component) and yield nothing. -/
def Display.from_str (value : String) : Option Display × List String :=
  if value = "all" then (some .All, [])
  else if value = "almost-all" then (some .AlmostAll, [])
  else if value = "directory-only" then (some .DirectoryItself, [])
  else (none,
    ["display can only be one of all, almost-all or directory-only, but got " ++ value])

/-- `Display::from_config`: read the document's `display` field when
present; absent fields contribute nothing and report nothing. -/
def Display.from_config (config : ConfigFile.Config) : Option Display × List String :=
  match config.display with
  | some disp => Display.from_str disp
  | none => (none, [])

/-! ## `src/flags/theme.rs` — the color-theme option resolver -/

/-- `flags::ColorTheme`: the path of the color theme file.  Rust's `Path` is
modelled as its underlying string. -/
structure ColorTheme where
  path : String
deriving DecidableEq, Repr

/-- `Path::is_relative` on Unix: a path is relative iff it does not start
with the root separator. -/
def pathIsRelative (p : String) : Bool :=
  match p.data with
  | [] => true
  | c :: _ => !(c = '/')

/-- `ColorTheme::from_arg_matches`, transcribed as written: when the
`--color-theme` argument is present, a relative supplied path yields
`Path::new()` — a path built from no component at all, i.e. the empty
path — and an absolute path is returned as is; an absent argument yields
nothing.  The argument models `matches.value_of("color-theme")`. -/
def ColorTheme.from_arg_matches (colorThemeArg : Option String) : Option ColorTheme :=
  match colorThemeArg with
  | some path =>
      if pathIsRelative path then some ⟨""⟩ else some ⟨path⟩
  | none => none

end Flags

/-! ## Statement helpers and concrete instances used by the theorems -/

/-- The fixed per-category glyph `Icons::get` is committed to before any
name/extension matching: defined exactly for the six categories of the
source's first seven match arms. -/
def fixedGlyph (t : IconTheme) : FileType → Option String
  | .SymLink true => some t.icons_by_filetype.symlink_dir
  | .SymLink false => some t.icons_by_filetype.symlink_file
  | .Socket => some t.icons_by_filetype.socket
  | .Pipe => some t.icons_by_filetype.pipe
  | .CharDevice => some t.icons_by_filetype.device_char
  | .BlockDevice => some t.icons_by_filetype.device_block
  | .Special => some t.icons_by_filetype.special
  | _ => none

/-- The file types that reach the name/extension matching of `Icons::get`:
regular files and directories. -/
def FileType.isRegularOrDir : FileType → Bool
  | .Directory _ => true
  | .File _ _ => true
  | _ => false

/-- The filetype-category default of `Icons::get`'s final fallback
(non-Windows build): directory glyph, executable glyph for executable
regular files, generic file glyph otherwise. -/
def categoryDefault (t : IconTheme) : FileType → String
  | .Directory _ => t.icons_by_filetype.dir
  | .File _ true => t.icons_by_filetype.executable
  | _ => t.icons_by_filetype.file

/-- A concrete per-filetype glyph table with pairwise distinct glyphs. -/
def testByFiletype : IconsByFiletype :=
  ⟨"LD", "LF", "SO", "PI", "CD", "BD", "SP", "DI", "EX", "FI"⟩

/-- A concrete theme whose by-name table maps `foo.txt` and `dockerfile`
and whose by-extension table maps `txt` and `md`. -/
def testTheme : IconTheme :=
  ⟨testByFiletype,
   fun s => if s = "foo.txt" then some "N" else if s = "dockerfile" then some "D" else none,
   fun s => if s = "txt" then some "E" else if s = "md" then some "M" else none⟩

/-- A concrete theme with empty by-name and by-extension tables. -/
def emptyTablesTheme : IconTheme :=
  ⟨testByFiletype, fun _ => none, fun _ => none⟩

/-- A directory symlink named like a by-name/by-extension hit. -/
def symlinkEntry : Name := ⟨"foo.txt", some "txt", .SymLink true⟩

/-- A regular file whose lowercase name is in the by-name table. -/
def dockerfileEntry : Name := ⟨"Dockerfile", none, .File false false⟩

/-- A socket entry matching nothing by name or extension. -/
def socketEntry : Name := ⟨"mysock", none, .Socket⟩

/-- A regular, non-executable file matching nothing by name or extension. -/
def plainEntry : Name := ⟨"zzz", some "qqq", .File false false⟩

/-- The C5 document: `classic: "notabool"` next to a valid
`icons: {theme: fancy}`. -/
def c5Doc : Yaml := .map
  [("classic", .str "notabool"),
   ("icons", .map [("theme", .str "fancy")])]

/-- A raw configuration document whose `display` field holds an
unrecognized string. -/
def bogusDisplayConfig : ConfigFile.Config :=
  { ConfigFile.Config.with_none with display := some "bogus" }

/-! ## Theorems -/

/-- C1: for every entry whose file type is `SymLink` (dir or non-dir),
`Socket`, `Pipe`, `CharDevice`, `BlockDevice` or `Special`, and every
theme, `Icons::get` returns that exact category's `icons_by_filetype`
glyph (plus separator), and the by-name/by-extension tables are never
consulted: the result is invariant under replacing both tables. -/
theorem icons_get_fixed_filetype (t : IconTheme) (sep g : String) (n : Name)
    (h : fixedGlyph t n.file_type = some g) :
    Icons.get ⟨sep, some t⟩ n = g ++ sep ∧
    ∀ byName byExt,
      Icons.get ⟨sep, some ⟨t.icons_by_filetype, byName, byExt⟩⟩ n = g ++ sep := by
  obtain ⟨fn, ext, ft⟩ := n
  cases ft with
  | SymLink is_dir =>
      cases is_dir <;>
        (simp only [fixedGlyph, Option.some.injEq] at h; subst h;
         exact ⟨rfl, fun _ _ => rfl⟩)
  | Socket =>
      simp only [fixedGlyph, Option.some.injEq] at h; subst h
      exact ⟨rfl, fun _ _ => rfl⟩
  | Pipe =>
      simp only [fixedGlyph, Option.some.injEq] at h; subst h
      exact ⟨rfl, fun _ _ => rfl⟩
  | CharDevice =>
      simp only [fixedGlyph, Option.some.injEq] at h; subst h
      exact ⟨rfl, fun _ _ => rfl⟩
  | BlockDevice =>
      simp only [fixedGlyph, Option.some.injEq] at h; subst h
      exact ⟨rfl, fun _ _ => rfl⟩
  | Special =>
      simp only [fixedGlyph, Option.some.injEq] at h; subst h
      exact ⟨rfl, fun _ _ => rfl⟩
  | Directory uid => exact absurd h (by simp [fixedGlyph])
  | File uid exec => exact absurd h (by simp [fixedGlyph])

/-- C1 witness: a directory symlink named `foo.txt` — although both tables
would match its name and extension — gets the symlink-directory glyph. -/
theorem icons_get_fixed_filetype_witness :
    Icons.get ⟨" ", some testTheme⟩ symlinkEntry = "LD" ++ " " :=
  (icons_get_fixed_filetype testTheme " " "LD" symlinkEntry rfl).1

/-- C2: for regular files and directories, a hit on the lowercase full file
name in the by-name table wins outright; the by-extension table is
consulted only when the by-name lookup misses and an extension is present,
and then its hit is returned. -/
theorem icons_get_name_over_extension (t : IconTheme) (sep : String) (n : Name)
    (h : n.file_type.isRegularOrDir = true) :
    (∀ i, t.icons_by_name (toLowercase n.file_name) = some i →
        Icons.get ⟨sep, some t⟩ n = i ++ sep) ∧
    (∀ ext i, t.icons_by_name (toLowercase n.file_name) = none →
        n.extension = some ext →
        t.icons_by_extension (toLowercase ext) = some i →
        Icons.get ⟨sep, some t⟩ n = i ++ sep) := by
  obtain ⟨fn, extn, ft⟩ := n
  cases ft with
  | SymLink d => simp [FileType.isRegularOrDir] at h
  | Socket => simp [FileType.isRegularOrDir] at h
  | Pipe => simp [FileType.isRegularOrDir] at h
  | CharDevice => simp [FileType.isRegularOrDir] at h
  | BlockDevice => simp [FileType.isRegularOrDir] at h
  | Special => simp [FileType.isRegularOrDir] at h
  | Directory uid =>
      refine ⟨fun i hi => ?_, fun ext i hmiss hext hhit => ?_⟩
      · simp [Icons.get, hi]
      · subst hext
        simp [Icons.get, hmiss, hhit]
  | File uid ex =>
      refine ⟨fun i hi => ?_, fun ext i hmiss hext hhit => ?_⟩
      · simp [Icons.get, hi]
      · subst hext
        simp [Icons.get, hmiss, hhit]

/-- C2 witness: a file named `Dockerfile` whose lowercase name is in the
by-name table gets the by-name glyph. -/
theorem icons_get_name_over_extension_witness :
    Icons.get ⟨" ", some testTheme⟩ dockerfileEntry = "D" ++ " " :=
  (icons_get_name_over_extension testTheme " " dockerfileEntry rfl).1 "D" (by decide)

/-- C4 counterexample: a socket entry matching nothing by name or extension
does not get the generic file glyph (nor the directory or executable
glyph): `Icons::get` keeps the socket category glyph, so the claim's
"generic file glyph otherwise" fails for non-regular, non-directory
entries. -/
theorem icons_get_fallback_counterexample :
    emptyTablesTheme.icons_by_name (toLowercase socketEntry.file_name) = none ∧
    socketEntry.extension = none ∧
    Icons.get ⟨" ", some emptyTablesTheme⟩ socketEntry =
      emptyTablesTheme.icons_by_filetype.socket ++ " " ∧
    Icons.get ⟨" ", some emptyTablesTheme⟩ socketEntry ≠
      emptyTablesTheme.icons_by_filetype.file ++ " " := by
  refine ⟨rfl, rfl, rfl, ?_⟩
  decide

/-- C4 amended: restricted to regular-file and directory entries, an entry
matching nothing by name or extension falls back to the filetype-category
default (directory glyph, executable glyph on non-Windows, generic file
glyph otherwise), and every non-empty result of `Icons::get` is the chosen
glyph followed by the configured separator. -/
theorem icons_get_fallback (t : IconTheme) (sep : String) (n : Name)
    (hft : n.file_type.isRegularOrDir = true)
    (h1 : t.icons_by_name (toLowercase n.file_name) = none)
    (h2 : n.extension.bind (fun e => t.icons_by_extension (toLowercase e)) = none) :
    Icons.get ⟨sep, some t⟩ n = categoryDefault t n.file_type ++ sep ∧
    ∀ th m, Icons.get ⟨sep, th⟩ m ≠ "" → ∃ g, Icons.get ⟨sep, th⟩ m = g ++ sep := by
  constructor
  · obtain ⟨fn, extn, ft⟩ := n
    cases ft with
    | SymLink d => simp [FileType.isRegularOrDir] at hft
    | Socket => simp [FileType.isRegularOrDir] at hft
    | Pipe => simp [FileType.isRegularOrDir] at hft
    | CharDevice => simp [FileType.isRegularOrDir] at hft
    | BlockDevice => simp [FileType.isRegularOrDir] at hft
    | Special => simp [FileType.isRegularOrDir] at hft
    | Directory uid => simp only [Icons.get, h1, h2, categoryDefault]
    | File uid ex =>
        cases ex <;> simp only [Icons.get, h1, h2, categoryDefault]
  · intro th m hne
    cases th with
    | none => exact absurd rfl hne
    | some t' => exact ⟨_, rfl⟩

/-- C4 witness: a regular non-executable file named `zzz` with extension
`qqq`, matched by nothing, gets the generic file glyph. -/
theorem icons_get_fallback_witness :
    Icons.get ⟨" ", some emptyTablesTheme⟩ plainEntry = "FI" ++ " " :=
  (icons_get_fallback emptyTablesTheme " " plainEntry rfl rfl rfl).1

/-- C3: with `when = Never`, or `when = Auto` and `tty = false`, the
constructed `Icons` holds no theme and `Icons::get` returns the empty
string for every entry; no name, extension or filetype table can be
consulted because no theme table is retained at all. -/
theorem icons_disabled_empty (fp : Except String IconTheme) (dflt uni : IconTheme)
    (tty : Bool) (wh : IconOption) (th : FlagTheme) (sep : String)
    (h : wh = IconOption.Never ∨ (wh = IconOption.Auto ∧ tty = false)) (n : Name) :
    (Icons.new fp dflt uni tty wh th sep).theme = none ∧
    (Icons.new fp dflt uni tty wh th sep).get n = "" := by
  rcases h with h | ⟨h1, h2⟩
  · subst h
    cases tty <;> cases th <;> exact ⟨rfl, rfl⟩
  · subst h1
    subst h2
    cases th <;> exact ⟨rfl, rfl⟩

/-- C3 witness: `Icons::new` with `when = Never` on a tty, fancy theme,
yields the empty string for a concrete file entry. -/
theorem icons_disabled_empty_witness :
    (Icons.new (.ok testTheme) emptyTablesTheme emptyTablesTheme
        true IconOption.Never FlagTheme.Fancy " ").get dockerfileEntry = "" :=
  (icons_disabled_empty (.ok testTheme) emptyTablesTheme emptyTablesTheme
    true IconOption.Never FlagTheme.Fancy " " (Or.inl rfl) dockerfileEntry).2

/-- C7: when icons are enabled (`when = Always`, or `when = Auto` on a
tty), the unicode choice always yields the compiled-in unicode table and
ignores the outcome of `Theme::from_path` entirely; the fancy choice
yields the loaded override theme when `Theme::from_path` succeeds and the
compiled-in fancy default otherwise, silently; and in every enabled case
the constructed `Icons` holds some theme. -/
theorem icons_new_enabled (fp : Except String IconTheme) (dflt uni : IconTheme)
    (tty : Bool) (wh : IconOption) (sep : String)
    (h : wh = IconOption.Always ∨ (wh = IconOption.Auto ∧ tty = true)) :
    ((Icons.new fp dflt uni tty wh FlagTheme.Unicode sep).theme = some uni) ∧
    (∀ fp', Icons.new fp' dflt uni tty wh FlagTheme.Unicode sep =
        Icons.new fp dflt uni tty wh FlagTheme.Unicode sep) ∧
    (∀ t, fp = .ok t →
        (Icons.new fp dflt uni tty wh FlagTheme.Fancy sep).theme = some t) ∧
    (∀ e, fp = .error e →
        (Icons.new fp dflt uni tty wh FlagTheme.Fancy sep).theme = some dflt) ∧
    (∀ th, (Icons.new fp dflt uni tty wh th sep).theme ≠ none) := by
  rcases h with h | ⟨h1, h2⟩ <;>
    [skip; (subst h1; subst h2)] <;>
    [subst h; skip] <;>
    (first | cases tty | skip) <;>
    refine ⟨rfl, fun fp' => rfl, fun t ht => ?_, fun e he => ?_, fun th => ?_⟩ <;>
    try (subst ht)
  all_goals try (subst he)
  all_goals first
    | rfl
    | (cases th <;> cases fp <;> simp [Icons.new])

/-- C7 witness: with icons always on and a successfully loaded override
theme, the fancy choice holds exactly the loaded theme. -/
theorem icons_new_enabled_witness :
    (Icons.new (.ok testTheme) emptyTablesTheme emptyTablesTheme
        false IconOption.Always FlagTheme.Fancy " ").theme = some testTheme :=
  (icons_new_enabled (.ok testTheme) emptyTablesTheme emptyTablesTheme
    false IconOption.Always " " (Or.inl rfl)).2.2.1 testTheme rfl

/-- C5 counterexample: parsing the document `classic: "notabool"` together
with `icons: {theme: fancy}` produces no configuration at all — there is no
parsed document in which `icons.theme` could be honored, refuting the
claimed per-field isolation. -/
theorem with_yaml_mismatch_counterexample :
    (ConfigFile.Config.with_yaml (.ok c5Doc)).1 = none ∧
    ¬ ∃ c, (ConfigFile.Config.with_yaml (.ok c5Doc)).1 = some c ∧
        c.icons = some ⟨none, some "fancy"⟩ := by
  constructor
  · rfl
  · rintro ⟨c, hc, -⟩
    rw [show (ConfigFile.Config.with_yaml (.ok c5Doc)).1 = none from rfl] at hc
    cases hc

/-- C5 amended: a type-mismatched field fails the whole document — the
parse of `classic: "notabool"` next to a valid `icons.theme: fancy`
reports a format error and returns no document, so every field of the
document, the valid `icons.theme` included, falls back to the next
layer. -/
theorem with_yaml_mismatch_fails_whole :
    ConfigFile.Config.with_yaml (.ok c5Doc) =
      (none, ["configuration file format error, invalid type: expected a boolean"]) :=
  rfl

/-- C6: `Config::with_file` yields no document in every failure case and
distinguishes them only by reporting — silent on `NotFound`, reported for
any other read error and for unparsable content — and a document is
produced only from a fully successful parse. -/
theorem with_file_failures (file : String) :
    (ConfigFile.Config.with_file file (.error .NotFound) = (none, [])) ∧
    (∀ k, k ≠ ConfigFile.IOErrorKind.NotFound →
        (ConfigFile.Config.with_file file (.error k)).1 = none ∧
        (ConfigFile.Config.with_file file (.error k)).2 ≠ []) ∧
    (∀ (y : Except String Yaml) e, y.bind ConfigFile.Config.deserialize = .error e →
        (ConfigFile.Config.with_file file (.ok y)).1 = none ∧
        (ConfigFile.Config.with_file file (.ok y)).2 ≠ []) ∧
    (∀ r c, (ConfigFile.Config.with_file file r).1 = some c →
        ∃ y, r = .ok y ∧ y.bind ConfigFile.Config.deserialize = .ok c) := by
  refine ⟨rfl, ?_, ?_, ?_⟩
  · intro k hk
    cases k with
    | NotFound => exact absurd rfl hk
    | PermissionDenied => exact ⟨rfl, by simp [ConfigFile.Config.with_file]⟩
    | Other => exact ⟨rfl, by simp [ConfigFile.Config.with_file]⟩
  · intro y e he
    constructor
    · simp [ConfigFile.Config.with_file, ConfigFile.Config.with_yaml, he]
    · simp [ConfigFile.Config.with_file, ConfigFile.Config.with_yaml, he]
  · intro r c hc
    cases r with
    | error e =>
        cases e <;> simp [ConfigFile.Config.with_file] at hc
    | ok y =>
        refine ⟨y, rfl, ?_⟩
        revert hc
        simp only [ConfigFile.Config.with_file, ConfigFile.Config.with_yaml]
        cases hy : y.bind ConfigFile.Config.deserialize with
        | ok c' => intro hc; cases hc; rfl
        | error e => intro hc; cases hc

/-- C6 witness: a permission-denied read yields no document and a
report. -/
theorem with_file_failures_witness :
    (ConfigFile.Config.with_file "cfg" (.error .PermissionDenied)).1 = none ∧
    (ConfigFile.Config.with_file "cfg" (.error .PermissionDenied)).2 ≠ [] :=
  (with_file_failures "cfg").2.1 ConfigFile.IOErrorKind.PermissionDenied (by decide)

/-- C10: parsing the embedded built-in template always succeeds, so
`Config::default()` is total: for every outcome of locating and reading the
on-disk configuration file, a fully constructed configuration is
returned and the final `unwrap` cannot panic. -/
theorem default_config_total :
    (ConfigFile.Config.with_yaml (.ok ConfigFile.builtinConfigYaml)).1.isSome = true ∧
    ∀ located, (ConfigFile.Config.defaultConfig located).isSome = true := by
  refine ⟨rfl, ?_⟩
  intro located
  rcases located with - | ⟨p, r⟩
  · rfl
  · simp only [ConfigFile.Config.defaultConfig]
    cases h : (ConfigFile.Config.with_file p r).1 with
    | none => rfl
    | some c => rfl

/-- C8: `Display::from_config` returns the corresponding variant exactly
when the document's `display` field is `"all"`, `"almost-all"` or
`"directory-only"`; any other present string is reported and treated as
absent; an absent field contributes nothing and reports nothing.  (The
function is total by construction: it can neither abort nor panic.) -/
theorem display_from_config_characterized (c : ConfigFile.Config) :
    (Flags.Display.from_config c = (some .All, []) ↔ c.display = some "all") ∧
    (Flags.Display.from_config c = (some .AlmostAll, []) ↔
        c.display = some "almost-all") ∧
    (Flags.Display.from_config c = (some .DirectoryItself, []) ↔
        c.display = some "directory-only") ∧
    ((Flags.Display.from_config c).1.isSome = true ↔
        (c.display = some "all" ∨ c.display = some "almost-all" ∨
         c.display = some "directory-only")) ∧
    (∀ s, c.display = some s → s ≠ "all" → s ≠ "almost-all" →
        s ≠ "directory-only" →
        (Flags.Display.from_config c).1 = none ∧
        (Flags.Display.from_config c).2 ≠ []) ∧
    (c.display = none → Flags.Display.from_config c = (none, [])) := by
  simp only [Flags.Display.from_config]
  cases hd : c.display with
  | none => simp
  | some s =>
      simp only [Option.some.injEq]
      unfold Flags.Display.from_str
      split_ifs with h1 h2 h3
      · subst h1; simp
      · subst h2; simp
      · subst h3; simp
      · simp_all

/-- C8 witness: a document whose `display` field is the unrecognized
string `bogus` yields no value and a report. -/
theorem display_from_config_characterized_witness :
    (Flags.Display.from_config bogusDisplayConfig).1 = none ∧
    (Flags.Display.from_config bogusDisplayConfig).2 ≠ [] :=
  (display_from_config_characterized bogusDisplayConfig).2.2.2.2.1 "bogus"
    rfl (by decide) (by decide) (by decide)

/-- C9: `ColorTheme::from_arg_matches` evaluated as written — absent
argument yields nothing, but a present relative path yields the empty path
(`Path::new()` built from no component), not the supplied path resolved
against any configuration directory, contradicting the module's own doc
comment (`.config/lsd/ + path if relative`) and its own test (which
expects the raw supplied path). -/
theorem color_theme_from_arg_matches_relative :
    Flags.ColorTheme.from_arg_matches none = none ∧
    Flags.ColorTheme.from_arg_matches (some "theme-ok.yaml") =
      some ⟨""⟩ ∧
    (∀ cfgDir, Flags.ColorTheme.from_arg_matches (some "theme-ok.yaml") ≠
        some ⟨cfgDir ++ "/theme-ok.yaml"⟩) ∧
    Flags.ColorTheme.from_arg_matches (some "theme-ok.yaml") ≠
      some ⟨"theme-ok.yaml"⟩ := by
  refine ⟨rfl, rfl, ?_, by decide⟩
  intro cfgDir h
  rw [show Flags.ColorTheme.from_arg_matches (some "theme-ok.yaml") =
        some ⟨""⟩ from rfl] at h
  have hpath : ("" : String) = cfgDir ++ "/theme-ok.yaml" :=
    congrArg Flags.ColorTheme.path (Option.some.inj h)
  have hdata := congrArg String.data hpath
  simp at hdata

/-- C9 witness: concretely, the result for the relative argument is not
the path resolved against the conventional configuration directory. -/
theorem color_theme_from_arg_matches_relative_witness :
    Flags.ColorTheme.from_arg_matches (some "theme-ok.yaml") ≠
      some ⟨".config/lsd" ++ "/theme-ok.yaml"⟩ :=
  color_theme_from_arg_matches_relative.2.2.1 ".config/lsd"
